import Mathlib

/-!
Verification development for the configuration editing and verification engine
of the pyproject-template repository (hooks/utils/__init__.py and
hooks/post_gen_project.py).

The Python code is shallowly embedded: parsed YAML values carrying a source
line attribute become the inductive type `Value` (with `Option Int` for the
dynamically attached `line` attribute: `none` models a plain object without
the attribute, so that `getattr(value, "line", -1)` and direct `value.line`
access can be distinguished), a parsed document becomes a list of entries
`Doc`, and fallible code runs in `Except PErr` where `PErr` separates the
exceptions caught by `Config.verify` (`VerificationError`, `yaml.YAMLError`)
from uncaught Python exceptions (`TypeError`, `KeyError`, `AttributeError`,
`IndexError`) which crash the process.

String primitives are implemented on `List Char` so that all definitions
evaluate by kernel reduction; they model the CPython semantics of
`str.strip`, `str.split`, `str.lower` and code-point string comparison on
the ASCII data handled by the hooks.
-/

/-! ## String primitives (models of the CPython `str` methods used) -/

/-- Python whitespace for `str.strip` and `str.split` with no argument. -/
def isPyWs (c : Char) : Bool :=
  c == ' ' || c == '\t' || c == '\n' || c == '\r' || c == '\x0b' || c == '\x0c'

/-- `str.strip()` on the character list: drop leading and trailing whitespace. -/
def stripChars (cs : List Char) : List Char :=
  ((cs.dropWhile isPyWs).reverse.dropWhile isPyWs).reverse

/-- Embedding of `value.strip()`. -/
def pyStrip (s : String) : String :=
  String.mk (stripChars s.data)

/-- `str.split()` with no argument: split on runs of whitespace, no empty parts. -/
def splitWs (cs : List Char) : List (List Char) :=
  let p := cs.foldr
    (fun c acc =>
      if isPyWs c then
        match acc with
        | (ws, []) => (ws, ([] : List Char))
        | (ws, w) => (w :: ws, [])
      else (acc.1, c :: acc.2))
    ([], [])
  match p with
  | (ws, []) => ws
  | (ws, w) => w :: ws

/-- Joins words with a single space (`" ".join(words)`). -/
def joinSpace (ws : List (List Char)) : List Char :=
  match ws with
  | [] => []
  | [w] => w
  | w :: rest => w ++ ' ' :: joinSpace rest

/-- `sanitize` from hooks/utils/__init__.py: `" ".join(sinput.split())`. -/
def sanitize (sinput : String) : String :=
  String.mk (joinSpace (splitWs sinput.data))

/-- ASCII lower-casing of one character (`str.lower` on the ASCII data used). -/
def charLower (c : Char) : Char :=
  if 65 ≤ c.toNat && c.toNat ≤ 90 then Char.ofNat (c.toNat + 32) else c

/-- Embedding of `value.lower()`. -/
def pyLower (s : String) : String :=
  String.mk (s.data.map charLower)

/-- Code-point comparison of characters, as CPython compares characters. -/
def charLtN (a b : Char) : Bool := a.toNat < b.toNat

/-- Lexicographic code-point comparison of character lists (Python `str` <=). -/
def lexLe : List Char → List Char → Bool
  | [], _ => true
  | _ :: _, [] => false
  | a :: as, b :: bs =>
    if charLtN a b then true
    else if charLtN b a then false
    else lexLe as bs

/-- Python string comparison `a <= b` (code-point lexicographic). -/
def pyStrLe (a b : String) : Bool := lexLe a.data b.data

/-- The ordering relation used to state sortedness of Python `sorted` output. -/
def pyLeRel (a b : String) : Prop := pyStrLe a b = true

instance : DecidableRel pyLeRel := fun a b => by
  unfold pyLeRel; infer_instance

/-- Embedding of Python `sorted` on lists of strings: a sort with respect to
the code-point lexicographic order.  Strings that compare equal under that
order are identical, so any correct sort computes the same list as CPython. -/
def pySorted (l : List String) : List String :=
  List.insertionSort pyLeRel l

/-- `needle in hay` on Python strings: substring containment. -/
def strContains (hay needle : String) : Bool :=
  hay.data.tails.any (fun t => needle.data.isPrefixOf t)

/-- `hay.startswith(pre)` on Python strings. -/
def strStarts (hay pre : String) : Bool :=
  pre.data.isPrefixOf hay.data

/-! ## Regular expression matchers

The patterns WORD_RE, KWORD_RE, IDEN_RE and PYVER_RE from
hooks/utils/__init__.py and hooks/post_gen_project.py, implemented directly
(all four are anchored `^...$` patterns over explicit character classes, and
they are matched only against values already stripped of surrounding
whitespace, so the `$`-before-final-newline subtlety of `re` cannot arise). -/

/-- Character class `[-_0-9a-zA-Z]`. -/
def wordChar (c : Char) : Bool :=
  c == '-' || c == '_' || c.isDigit || c.isAlpha

/-- Character class `[_0-9a-zA-Z]`. -/
def idenChar (c : Char) : Bool :=
  c == '_' || c.isDigit || c.isAlpha

/-- `WORD_RE = ^[a-zA-Z][-_0-9a-zA-Z]{2,}$`. -/
def wordRe (s : String) : Bool :=
  match s.data with
  | [] => false
  | c :: rest => c.isAlpha && decide (rest.length ≥ 2) && rest.all wordChar

/-- `IDEN_RE = ^[a-zA-Z][_0-9a-zA-Z]{2,}$`. -/
def idenRe (s : String) : Bool :=
  match s.data with
  | [] => false
  | c :: rest => c.isAlpha && decide (rest.length ≥ 2) && rest.all idenChar

/-- Splits a character list at every occurrence of `sep`, keeping empty parts
(like Python `s.split(sep)` with an explicit separator). -/
def splitOnChar (sep : Char) : List Char → List (List Char)
  | [] => [[]]
  | c :: rest =>
    if c == sep then [] :: splitOnChar sep rest
    else
      match splitOnChar sep rest with
      | [] => [[c]]
      | w :: ws => (c :: w) :: ws

/-- `KWORD_RE = ^[a-zA-Z][-_0-9a-zA-Z]{2,}([ ][a-zA-Z][-_0-9a-zA-Z]{2,})*$`:
words matching WORD_RE separated by single spaces (an empty part, produced by
a leading, trailing or doubled space, matches nothing). -/
def kwordRe (s : String) : Bool :=
  (splitOnChar ' ' s.data).all (fun w => wordRe (String.mk w))

/-- `PYVER_RE = ^[3]\.[0-9]+$`. -/
def pyverRe (s : String) : Bool :=
  match s.data with
  | '3' :: '.' :: rest => decide (rest.length ≥ 1) && rest.all Char.isDigit
  | _ => false

/-! ## PyPI classifiers helpers (hooks/utils/__init__.py, post_gen_project.py)

`load_classifiers` performs package-import / network I/O and its bundled
fallback list lives outside src/, so the list of classifiers is a parameter
of every definition that needs it. -/

/-- `find_license`: the first classifier that starts with `"License ::"` and
contains `license_name` as a substring. -/
def findLicense (classifiers : List String) (licenseName : String) : Option String :=
  classifiers.find? (fun c => strStarts c "License ::" && strContains c licenseName)

/-- The `Classifiers.__classifiers` field: all loaded classifiers that do not
start with `"License ::"`. -/
def nonLicense (classifiers : List String) : List String :=
  classifiers.filter (fun c => !(strStarts c "License ::"))

/-! ## Located values and documents -/

/-- A parsed YAML value as produced by `load_yaml`, or a value written back by
a normalization step.  The `Option Int` field is the dynamically attached
`line` attribute; `none` models a plain object without the attribute (all
normalizations in the source store plain `str` / `bool` / `list` objects).
Python `bool` cannot carry attributes at all (and cannot be subclassed), so
`vbool` has no line field. -/
inductive Value where
  | vstr (s : String) (line : Option Int)
  | vint (n : Int) (line : Option Int)
  | vbool (b : Bool)
  | vnull (line : Option Int)
  | vlist (elems : List Value) (line : Option Int)

/-- One entry of the parsed top-level mapping: the key string, the line
attribute of the wrapped key object, and the value.  Dict assignment in
Python keeps the original key object, so `keyLine` survives normalization. -/
structure Entry where
  key : String
  keyLine : Int
  value : Value

/-- A parsed document: the top-level mapping in document order. -/
abbrev Doc := List Entry

/-- Errors: the first two are caught by `Config.verify` and turned into a
located `Error` result; `pyError` models an uncaught Python exception
(TypeError, KeyError, AttributeError, IndexError) which escapes it. -/
inductive PErr where
  | verificationError (line : Int) (detail : String)
  | yamlError (line : Int) (msg : String)
  | pyError (name : String) (msg : String)

/-- The result of `Config.verify`: a `Result` holding the normalized document,
or an `Error` holding the best-known line and a message. -/
inductive VOutcome where
  | valid (doc : Doc)
  | failed (line : Int) (detail : String)

/-- Python dict lookup `config[key]` (first entry with the key). -/
def lookupDoc : Doc → String → Option Value
  | [], _ => none
  | e :: rest, k => if e.key == k then some e.value else lookupDoc rest k

/-- Python dict assignment `config[key] = v` for a key already present. -/
def updateDoc : Doc → String → Value → Doc
  | [], _, _ => []
  | e :: rest, k, v =>
    if e.key == k then { e with value := v } :: rest else e :: updateDoc rest k v

/-- `key_line(cfgmap, key)`: the line attribute of the key object, `-1` if
the key is not present. -/
def keyLineOf (doc : Doc) (k : String) : Int :=
  match doc.find? (fun e => e.key == k) with
  | some e => e.keyLine
  | none => -1

/-- `getattr(value, "line", -1)`. -/
def getAttrLine : Value → Int
  | .vstr _ (some l) => l
  | .vint _ (some l) => l
  | .vnull (some l) => l
  | .vlist _ (some l) => l
  | _ => -1

/-- Direct `value.line` attribute access: raises AttributeError on a plain
object that was never wrapped. -/
def strictLine : Value → Except PErr Int
  | .vstr _ (some l) => .ok l
  | .vint _ (some l) => .ok l
  | .vnull (some l) => .ok l
  | .vlist _ (some l) => .ok l
  | _ => .error (.pyError "AttributeError" "no attribute line")

/-- `isinstance(value, str)`. -/
def isStrV : Value → Bool
  | .vstr _ _ => true
  | _ => false

/-- `isinstance(value, int)`: in Python `bool` is a subclass of `int`. -/
def isIntV : Value → Bool
  | .vint _ _ => true
  | .vbool _ => true
  | _ => false

/-- `isinstance(value, list)`. -/
def isListV : Value → Bool
  | .vlist _ _ => true
  | _ => false

/-- The integer denoted by an int-instance value (`True == 1`, `False == 0`). -/
def intOfV : Value → Int
  | .vint n _ => n
  | .vbool b => if b then 1 else 0
  | _ => 0

/-- Python `==` between a config value and an int literal, as used by
`config[PROJECT_TYPE_KEY] != PLUGIN` and friends. -/
def pyEqInt (v : Value) (m : Int) : Bool :=
  match v with
  | .vint n _ => n == m
  | .vbool b => (if b then (1 : Int) else 0) == m
  | _ => false

/-- Python `str(value)` as interpolated into the error f-strings (only
reachable for strings and ints in the verification flows modelled; the
container case is elided). -/
def pyStr : Value → String
  | .vstr s _ => s
  | .vint n _ => toString n
  | .vbool b => if b then "True" else "False"
  | .vnull _ => "null"
  | .vlist _ _ => "[...]"

/-! ## Verification primitives (ConfigItem methods, hooks/utils/__init__.py) -/

/-- `assert_type(value, vtype)`: fail with `expected <tyname>` at
`getattr(value, "line", -1)` when the predicate rejects the value. -/
def assertTypeV (pred : Value → Bool) (tyName : String) (v : Value) : Except PErr Unit :=
  if pred v then .ok ()
  else .error (.verificationError (getAttrLine v) ("expected " ++ tyName))

/-- `assert_item_type(config, key, itype)`: fail at the line of the key. -/
def assertItemType (doc : Doc) (k : String) (pred : Value → Bool) (tyName : String) :
    Except PErr Unit :=
  match lookupDoc doc k with
  | none => .error (.pyError "KeyError" k)
  | some v =>
    if pred v then .ok ()
    else .error (.verificationError (keyLineOf doc k) (k ++ ": expected " ++ tyName))

/-- `len(value)` for the strings and lists it is applied to. -/
def pyLenV : Value → Except PErr Nat
  | .vstr s _ => .ok s.length
  | .vlist xs _ => .ok xs.length
  | _ => .error (.pyError "TypeError" "object has no len()")

/-- `assert_item_nonempty(config, key)`: fail at the line of the key. -/
def assertItemNonempty (doc : Doc) (k : String) : Except PErr Unit :=
  match lookupDoc doc k with
  | none => .error (.pyError "KeyError" k)
  | some v => do
    let n ← pyLenV v
    if n == 0 then .error (.verificationError (keyLineOf doc k) (k ++ " is empty"))
    else .ok ()

/-- The tokens coerced to `True` by `ConfigItem.verify_bool`. -/
def truthyTokens : List String := ["yes", "y", "true", "t", "1"]

/-- The tokens coerced to `False` by `ConfigItem.verify_bool`. -/
def falsyTokens : List String := ["no", "n", "false", "f", "0"]

/-- `ConfigItem.verify_bool`: native bools pass through unchanged; ints must
be 0 or 1 and are replaced by the plain bool `value == 1`; strings are
stripped, lower-cased and looked up in the two token sets; anything else is
a type failure at the line of the key. -/
def verifyBool (k : String) (doc : Doc) : Except PErr Doc :=
  match lookupDoc doc k with
  | none => .error (.pyError "KeyError" k)
  | some v =>
    match v with
    | .vbool _ => .ok doc
    | .vint n lineOpt =>
      if n == 0 || n == 1 then .ok (updateDoc doc k (.vbool (n == 1)))
      else
        match lineOpt with
        | some l =>
          .error (.verificationError l ("Invalid value (" ++ toString n ++ ")"))
        | none => .error (.pyError "AttributeError" "no attribute line")
    | .vstr s lineOpt =>
      let sv := pyLower (pyStrip s)
      if truthyTokens.contains sv then .ok (updateDoc doc k (.vbool true))
      else if falsyTokens.contains sv then .ok (updateDoc doc k (.vbool false))
      else
        match lineOpt with
        | some l => .error (.verificationError l ("Invalid value (" ++ s ++ ")"))
        | none => .error (.pyError "AttributeError" "no attribute line")
    | _ =>
      .error (.verificationError (keyLineOf doc k) (k ++ ": expected str"))

/-- `ConfigItem.verify_int` with inclusive bounds. -/
def verifyInt (k : String) (vmin vmax : Option Int) (doc : Doc) : Except PErr Doc :=
  match lookupDoc doc k with
  | none => .error (.pyError "KeyError" k)
  | some v =>
    if isIntV v then
      let n := intOfV v
      if (match vmin with | some m => decide (n < m) | none => false)
          || (match vmax with | some m => decide (m < n) | none => false) then do
        let l ← strictLine v
        .error (.verificationError l ("Invalid value (" ++ toString n ++ ")"))
      else .ok doc
    else .error (.verificationError (keyLineOf doc k) (k ++ ": expected int"))

/-- `ConfigItem.verify_str`: type and non-emptiness checks fail at the key
line; the value is stripped, optionally matched against the pattern (failing
at the value line on mismatch), and the stripped value — a plain `str`
without a line attribute — is stored back. -/
def verifyStr (k : String) (regexp : Option (String → Bool)) (doc : Doc) :
    Except PErr Doc :=
  match lookupDoc doc k with
  | none => .error (.pyError "KeyError" k)
  | some v =>
    match v with
    | .vstr s lineOpt =>
      if s.length == 0 then
        .error (.verificationError (keyLineOf doc k) (k ++ " is empty"))
      else
        let sv := pyStrip s
        match regexp with
        | some re =>
          if re sv then .ok (updateDoc doc k (.vstr sv none))
          else
            match lineOpt with
            | some l =>
              .error (.verificationError l ("Invalid value format (" ++ s ++ ")"))
            | none => .error (.pyError "AttributeError" "no attribute line")
        | none => .ok (updateDoc doc k (.vstr sv none))
    | _ =>
      .error (.verificationError (keyLineOf doc k) (k ++ ": expected str"))

/-- The element loop of `ConfigItem.verify_list`: each element must be a
string (else `expected str` at the element), is sanitized, matched against
the pattern (failing at the element line with the item name on mismatch),
and replaced in the list by the plain sanitized string. -/
def verifyElems (re : String → Bool) (itemName : String) :
    List Value → Except PErr (List Value)
  | [] => .ok []
  | .vstr s lineOpt :: rest =>
    let si := sanitize s
    if re si then do
      let tail ← verifyElems re itemName rest
      .ok (.vstr si none :: tail)
    else
      match lineOpt with
      | some l =>
        .error (.verificationError l ("Invalid " ++ itemName ++ " (" ++ s ++ ")"))
      | none => .error (.pyError "AttributeError" "no attribute line")
  | item :: _ =>
    .error (.verificationError (getAttrLine item) "expected str")

/-- `ConfigItem.verify_list`.  The element replacement happens in place, so
the wrapped list object and its line attribute survive; the elements become
plain strings.  The `sort=True` branch executes `sorted(items, self.sorter)`,
which raises `TypeError` in Python 3 (the key function of `sorted` is
keyword-only); no call site of the repository passes `sort=True`. -/
def verifyList (k : String) (re : String → Bool) (itemName : String)
    (emptyOk sortFlag : Bool) (doc : Doc) : Except PErr Doc :=
  match lookupDoc doc k with
  | none => .error (.pyError "KeyError" k)
  | some v =>
    match v with
    | .vlist xs lineOpt =>
      if !emptyOk && xs.length == 0 then
        .error (.verificationError (keyLineOf doc k) (k ++ " is empty"))
      else do
        let xs2 ← verifyElems re itemName xs
        if sortFlag then
          .error (.pyError "TypeError" "sorted expected 1 argument, got 2")
        else .ok (updateDoc doc k (.vlist xs2 lineOpt))
    | _ =>
      .error (.verificationError (keyLineOf doc k) (k ++ ": expected list"))

/-! ## The twelve field rules (hooks/post_gen_project.py) -/

/-- The element loop of `Classifiers.verify`: each element must be a string,
is sanitized and must belong to the loaded non-License classifier list;
the sanitized plain strings are collected. -/
def classifiersElems (cls : List String) : List Value → Except PErr (List String)
  | [] => .ok []
  | .vstr s lineOpt :: rest =>
    let si := sanitize s
    if cls.contains si then do
      let tail ← classifiersElems cls rest
      .ok (si :: tail)
    else
      match lineOpt with
      | some l =>
        .error (.verificationError l ("Invalid classifier (" ++ s ++ ")"))
      | none => .error (.pyError "AttributeError" "no attribute line")
  | item :: _ =>
    .error (.verificationError (getAttrLine item) "expected str")

/-- `Classifiers.verify`, parameterized by the loaded non-License classifier
list `cls` and the pinned MIT license classifier `mit` found by
`find_license`.  After the element loop the MIT classifier is appended and
the whole list is re-assigned as `sorted(items)` — a plain list of plain
strings, without line attributes. -/
def classifiersVerify (cls : List String) (mit : String) (doc : Doc) :
    Except PErr Doc :=
  match lookupDoc doc "classifiers" with
  | none => .error (.pyError "KeyError" "classifiers")
  | some v =>
    match v with
    | .vlist xs _ => do
      let ss ← classifiersElems cls xs
      .ok (updateDoc doc "classifiers"
        (.vlist ((pySorted (ss ++ [mit])).map (fun s => .vstr s none)) none))
    | _ =>
      .error (.verificationError (keyLineOf doc "classifiers")
        "classifiers: expected list")

/-- `Interpreters.verify`: `verify_list(config, PYVER_RE, "Python version")`.
No `sort` keyword is passed, so the `sort` flag keeps its default `False`
and the list is never reordered (the numeric-tuple `sorter` of the class is
reachable only through the dead `sort=True` branch). -/
def interpretersVerify (doc : Doc) : Except PErr Doc :=
  verifyList "interpreters" pyverRe "Python version" false false doc

/-- `Keywords.verify`: `verify_list(config, KWORD_RE, "keyword format")`. -/
def keywordsVerify (doc : Doc) : Except PErr Doc :=
  verifyList "keywords" kwordRe "keyword format" false false doc

/-- `Platforms.verify`: `verify_list(config, WORD_RE, "platform name")`. -/
def platformsVerify (doc : Doc) : Except PErr Doc :=
  verifyList "platforms" wordRe "platform name" false false doc

/-- `Requirements.verify`: `verify_list(..., empty=True, sort=False)`. -/
def requirementsVerify (doc : Doc) : Except PErr Doc :=
  verifyList "requirements" wordRe "requirement name" true false doc

/-- `ProjectType.verify`: `verify_int(config, PACKAGE, CONSOLE_APP)`. -/
def projectTypeVerify (doc : Doc) : Except PErr Doc :=
  verifyInt "project_type" (some 0) (some 2) doc

/-- `PluginNameSpace.verify`: skipped unless `project_type == PLUGIN` (1);
otherwise `verify_str(config, IDEN_RE)`. -/
def pluginNameSpaceVerify (doc : Doc) : Except PErr Doc :=
  match lookupDoc doc "project_type" with
  | none => .error (.pyError "KeyError" "project_type")
  | some pt =>
    if pyEqInt pt 1 then verifyStr "plugin_name_space" (some idenRe) doc
    else .ok doc

/-- `EntryPointName.verify`: skipped when `project_type == PACKAGE` (0);
otherwise `verify_str(config, WORD_RE)`. -/
def entryPointNameVerify (doc : Doc) : Except PErr Doc :=
  match lookupDoc doc "project_type" with
  | none => .error (.pyError "KeyError" "project_type")
  | some pt =>
    if pyEqInt pt 0 then .ok doc
    else verifyStr "entry_point_name" (some wordRe) doc

/-- `EntryPointSource.verify`: skipped when `project_type == PACKAGE` (0);
otherwise `verify_str(config, IDEN_RE)`. -/
def entryPointSourceVerify (doc : Doc) : Except PErr Doc :=
  match lookupDoc doc "project_type" with
  | none => .error (.pyError "KeyError" "project_type")
  | some pt =>
    if pyEqInt pt 0 then .ok doc
    else verifyStr "entry_point_source" (some idenRe) doc

/-- `EntryPointSourceDescription.verify`: skipped when `project_type` is 0;
otherwise `verify_str(config)` followed by appending a period when the
stored (stripped, plain) string does not end in one.  Indexing `[-1]` on an
empty string raises IndexError. -/
def entryPointSourceDescriptionVerify (doc : Doc) : Except PErr Doc :=
  match lookupDoc doc "project_type" with
  | none => .error (.pyError "KeyError" "project_type")
  | some pt =>
    if pyEqInt pt 0 then .ok doc
    else do
      let doc2 ← verifyStr "entry_point_source_description" none doc
      match lookupDoc doc2 "entry_point_source_description" with
      | some (.vstr s lineOpt) =>
        match s.data.getLast? with
        | none => .error (.pyError "IndexError" "string index out of range")
        | some c =>
          if c == '.' then .ok doc2
          else .ok (updateDoc doc2 "entry_point_source_description"
            (.vstr (s ++ ".") lineOpt))
      | _ => .error (.pyError "KeyError" "entry_point_source_description")

/-- `EntryPointFunction.verify`: skipped unless `project_type == CONSOLE_APP`
(2); otherwise `verify_str(config, IDEN_RE)`. -/
def entryPointFunctionVerify (doc : Doc) : Except PErr Doc :=
  match lookupDoc doc "project_type" with
  | none => .error (.pyError "KeyError" "project_type")
  | some pt =>
    if pyEqInt pt 2 then verifyStr "entry_point_function" (some idenRe) doc
    else .ok doc

/-- `InitializeWithGit.verify`: `verify_bool(config)`. -/
def initializeWithGitVerify (doc : Doc) : Except PErr Doc :=
  verifyBool "initialize_with_git" doc

/-! ## The schema registry (`Config`, hooks/utils/__init__.py) -/

/-- `Config.verify_keys` (after its dict assertion): walk the parsed mapping
in document order and fail with `Invalid key (<key>)` at the line attribute
of the first key that is not a declared item key. -/
def verifyKeysGen (declared : List String) : Doc → Except PErr Unit
  | [] => .ok ()
  | e :: rest =>
    if declared.contains e.key then verifyKeysGen declared rest
    else .error (.verificationError e.keyLine ("Invalid key (" ++ e.key ++ ")"))

/-- The item loop of `Config.verify`: run each item verification in
declaration order against the evolving document, short-circuiting at the
first failure. -/
def foldVerify : List (Doc → Except PErr Doc) → Doc → Except PErr Doc
  | [], doc => .ok doc
  | f :: fs, doc =>
    match f doc with
    | .ok doc2 => foldVerify fs doc2
    | .error e => .error e

/-- The exception handling of `Config.verify`: `yaml.YAMLError` and
`VerificationError` become a located `Error` result; any other exception
escapes and crashes the process. -/
def toOutcome : Except PErr Doc → Except String VOutcome
  | .ok d => .ok (.valid d)
  | .error (.verificationError l m) => .ok (.failed l m)
  | .error (.yamlError l m) => .ok (.failed l m)
  | .error (.pyError n m) => .error (n ++ ": " ++ m)

/-- `Config.verify` after a successful parse: key check first, then the item
loop, with the exception handling of the source. -/
def configVerifyGen (declared : List String) (items : List (Doc → Except PErr Doc))
    (doc : Doc) : Except String VOutcome :=
  toOutcome
    (match verifyKeysGen declared doc with
     | .error e => .error e
     | .ok () => foldVerify items doc)

/-- The declared item keys of `ProjectConfig`, in declaration order. -/
def projectKeys : List String :=
  ["classifiers", "interpreters", "keywords", "platforms", "requirements",
   "project_type", "plugin_name_space", "entry_point_name",
   "entry_point_source", "entry_point_source_description",
   "entry_point_function", "initialize_with_git"]

/-- The item verifications of `ProjectConfig`, in declaration order,
parameterized by the loaded non-License classifier list and the pinned MIT
classifier. -/
def projectItems (cls : List String) (mit : String) :
    List (Doc → Except PErr Doc) :=
  [classifiersVerify cls mit, interpretersVerify, keywordsVerify,
   platformsVerify, requirementsVerify, projectTypeVerify,
   pluginNameSpaceVerify, entryPointNameVerify, entryPointSourceVerify,
   entryPointSourceDescriptionVerify, entryPointFunctionVerify,
   initializeWithGitVerify]

/-- `ProjectConfig` verification of an already parsed document. -/
def projectConfigVerify (cls : List String) (mit : String) (doc : Doc) :
    Except String VOutcome :=
  configVerifyGen projectKeys (projectItems cls mit) doc

/-! ## The edit-verify loop (`Config.edit_verify_loop`)

The loop alternates `self.edit(fpath, at_line)` and `self.verify(fpath)`.
The editor process and the `click` prompt are external, so one loop run is
driven by a script: entry `i` holds the verification outcome of the file
contents after the `i`-th editor invocation, and the answer of the operator to
the continue prompt (consulted only when that outcome is an error).  The
function returns the lines at which the editor was invoked (so the number
of invocations is the length of that list) together with the returned
configuration (`none` models the `None` returned after a declined prompt).
`none` overall means the script was exhausted with the loop still running. -/
def editVerifyLoop (atLine : Int) :
    List (VOutcome × Bool) → Option (List Int × Option Doc)
  | [] => none
  | (outcome, ans) :: rest =>
    match outcome with
    | .valid d => some ([atLine], some d)
    | .failed line _ =>
      if ans then
        match editVerifyLoop line rest with
        | some (ls, r) => some (atLine :: ls, r)
        | none => none
      else some ([atLine], none)

/-! ## The line-tracking reader (`load_yaml`, `wrap_yaml_ctor`, `wrap_yaml_obj`)

`load_yaml` delegates parsing to the external pyyaml `SafeLoader` and wraps
every constructed value: `wrap_yaml_obj` replaces the value by an instance
of a dynamically created subclass of its runtime class (`None` is replaced
by a fresh `NullType` instance) so that a `line` attribute can be attached.
CPython refuses `bool` as a base class — creating the dynamic subclass
raises a `TypeError` saying bool is not an acceptable base type — and that
`TypeError` is not a `yaml.YAMLError`, so it escapes both `load_yaml` and
the handlers of `Config.verify`. -/

/-- A plain Python object produced by a pyyaml scalar constructor. -/
inductive PyObj where
  | pynone
  | pybool (b : Bool)
  | pyint (n : Int)
  | pystr (s : String)

/-- Whether CPython accepts the runtime class of the object as a base class
of a new type (`bool` is not an acceptable base type). -/
def pySubclassable : PyObj → Bool
  | .pybool _ => false
  | _ => true

/-- `wrap_yaml_obj` followed by the `setattr(data, "line", ...)` of the
constructor wrapper: `None` becomes a located `NullType`; any other value
becomes an instance of a fresh subclass of its class carrying the 1-based
start line of its node — except that creating the subclass raises
`TypeError` when the class is not an acceptable base type. -/
def wrapYamlValue (obj : PyObj) (startLine : Int) : Except PErr Value :=
  match obj with
  | .pynone => .ok (.vnull (some startLine))
  | .pybool _ =>
    .error (.pyError "TypeError" "type bool is not an acceptable base type")
  | .pyint n => .ok (.vint n (some startLine))
  | .pystr s => .ok (.vstr s (some startLine))

/-- The pyyaml 1.1 implicit resolver restricted to the plain scalar tokens
relevant here (external library behaviour): the boolean tokens resolve to
`tag:yaml.org,2002:bool`, `null`-like tokens to null, digit runs to int,
anything else to str. -/
def resolveScalar (tok : String) : PyObj :=
  if ["yes", "Yes", "YES", "true", "True", "TRUE", "on", "On", "ON"].contains tok then
    .pybool true
  else if ["no", "No", "NO", "false", "False", "FALSE", "off", "Off", "OFF"].contains tok then
    .pybool false
  else if tok == "null" || tok == "~" || tok == "" then .pynone
  else if tok.data ≠ [] && tok.data.all Char.isDigit then
    .pyint (tok.data.foldl (fun acc c => 10 * acc + (c.toNat - 48 : Int)) 0)
  else .pystr tok

/-- `load_yaml` on a document whose top level is a mapping of plain scalars:
each key and value is constructed and then wrapped with its 1-based line.
The first wrapping failure escapes, as in the source. -/
def loadYamlTopMap : List (String × String × Int) → Except PErr Doc
  | [] => .ok []
  | (k, tok, ln) :: rest => do
    let v ← wrapYamlValue (resolveScalar tok) ln
    let tail ← loadYamlTopMap rest
    .ok ({ key := k, keyLine := ln, value := v } :: tail)

/-- Which errors the `except` clauses of `Config.verify` catch
(`yaml.YAMLError` and `VerificationError`). -/
def caughtByConfigVerify : PErr → Bool
  | .verificationError _ _ => true
  | .yamlError _ _ => true
  | .pyError _ _ => false

/-! ## Rendering (`YamlConfigItem.render`, `Config.render`,
`ProjectConfig.render`) -/

/-- A plain Python default value of a config item. -/
inductive PyDefault where
  | dnull
  | dbool (b : Bool)
  | dint (n : Int)
  | dstr (s : String)
  | dlist (xs : List String)

/-- `value.replace('"', '\\"')` as used by `val2yml` for strings. -/
def escapeQuotes (s : String) : String :=
  String.mk (s.data.foldr
    (fun c acc => if c == '"' then '\\' :: '"' :: acc else c :: acc) [])

/-- `YamlConfigItem.val2yml`: `None` renders as `null`, bools lowercase,
strings quoted with inner quotes escaped, a nonempty list as the empty
string (its elements are expanded on the following lines), and anything
else — including the empty list — via `repr`. -/
def val2yml : PyDefault → String
  | .dnull => "null"
  | .dbool b => if b then "true" else "false"
  | .dstr s => "\"" ++ escapeQuotes s ++ "\""
  | .dint n => toString n
  | .dlist xs => if decide (xs.length > 0) then "" else "[]"

/-- A declared config item as constructed in hooks/post_gen_project.py:
description lines, key, default value and the hint flag. -/
structure ItemSpec where
  desc : List String
  key : String
  default : PyDefault
  hint : Bool

/-- `isinstance(value, (list, tuple))` on a default. -/
def isListD : PyDefault → Bool
  | .dlist _ => true
  | _ => false

/-- `YamlConfigItem.render`: description lines as comments, the `key: value`
line (a hinted list default renders as the empty list), then for list
defaults one indented line per element, commented out when the item is a
hint, and a closing blank line. -/
def renderItem (it : ItemSpec) : List String :=
  (it.desc.map (fun d => "# " ++ pyStrip d))
    ++ [it.key ++ ": "
        ++ pyStrip (val2yml (if isListD it.default && it.hint then .dlist []
                             else it.default))]
    ++ (match it.default with
        | .dlist xs =>
          xs.map (fun x =>
            "  " ++ (if it.hint then "#" else "") ++ "- "
              ++ pyStrip (val2yml (.dstr x)))
        | _ => [])
    ++ [""]

/-- The `Classifiers` item: loaded non-License classifiers as a hint. -/
def classifiersItem (cls : List String) : ItemSpec :=
  { desc := ["Specify PyPI classifiers [mandatory]"],
    key := "classifiers", default := .dlist cls, hint := true }

/-- The `Interpreters` item with the PYVERS default. -/
def interpretersItem : ItemSpec :=
  { desc := ["Specify supported Python interpreters [mandatory]"],
    key := "interpreters", default := .dlist ["3.6", "3.7", "3.8", "3.9"],
    hint := false }

/-- The `Keywords` item: concrete empty-list default, not a hint. -/
def keywordsItem : ItemSpec :=
  { desc := ["Specify project keywords [mandatory]"],
    key := "keywords", default := .dlist [], hint := false }

/-- The `Platforms` item. -/
def platformsItem : ItemSpec :=
  { desc := ["Specify supported platforms (any, linux, macos, nt, os2, posix,",
             "unix, win32, windows, ...) [mandatory]"],
    key := "platforms", default := .dlist [], hint := false }

/-- The `Requirements` item. -/
def requirementsItem : ItemSpec :=
  { desc := ["Specify the list of project requirements (in pip format)"],
    key := "requirements", default := .dlist [], hint := false }

/-- The `ProjectType` item. -/
def projectTypeItem : ItemSpec :=
  { desc := ["Specify the project type. Choices are:",
             "  0 - package", "  1 - plugin", "  2 - console application"],
    key := "project_type", default := .dint 0, hint := false }

/-- The `PluginNameSpace` item. -/
def pluginNameSpaceItem : ItemSpec :=
  { desc := ["If you selected as a project_type plugin (1), please provide the",
             "plugin name space (i.e. if you are developing a tox plugin, the",
             "plugin name space is conventionally \"tox\")"],
    key := "plugin_name_space", default := .dnull, hint := false }

/-- The `EntryPointName` item. -/
def entryPointNameItem : ItemSpec :=
  { desc := ["If your project has entry points (project_type > 0), please",
             "provide the entry point name (this should be plugin or script",
             "name)"],
    key := "entry_point_name", default := .dnull, hint := false }

/-- The `EntryPointSource` item. -/
def entryPointSourceItem : ItemSpec :=
  { desc := ["If your project has entry points (project_type > 0), please",
             "provide the name of the source file (without extension) that",
             "contains the entry point\x27s code"],
    key := "entry_point_source", default := .dnull, hint := false }

/-- The `EntryPointSourceDescription` item. -/
def entryPointSourceDescriptionItem : ItemSpec :=
  { desc := ["If your project has entry points (project_type > 0), please",
             "provide the description of the entry point source file (what",
             "should go inside doc string)"],
    key := "entry_point_source_description", default := .dnull, hint := false }

/-- The `EntryPointFunction` item. -/
def entryPointFunctionItem : ItemSpec :=
  { desc := ["If you selected as a project_type console application (2),",
             "please provide the name of function that should be an",
             "application entry point"],
    key := "entry_point_function", default := .dstr "main", hint := false }

/-- The `InitializeWithGit` item. -/
def initializeWithGitItem : ItemSpec :=
  { desc := ["Initialize the project with git? (choose yes, no, y, n, true,",
             "false, t, f, 1, 0)"],
    key := "initialize_with_git", default := .dstr "yes", hint := false }

/-- The twelve declared items of `ProjectConfig`, in declaration order. -/
def projectItemSpecs (cls : List String) : List ItemSpec :=
  [classifiersItem cls, interpretersItem, keywordsItem, platformsItem,
   requirementsItem, projectTypeItem, pluginNameSpaceItem, entryPointNameItem,
   entryPointSourceItem, entryPointSourceDescriptionItem,
   entryPointFunctionItem, initializeWithGitItem]

/-- `ProjectConfig.render`: the document start marker, a blank line, then
each item rendered in declaration order (`Config.render`), parameterized by
the loaded non-License classifier list. -/
def projectRender (cls : List String) : List String :=
  "---" :: "" :: (projectItemSpecs cls).foldr (fun it acc => renderItem it ++ acc) []

/-! ## Parsing the rendered document

`load_yaml` delegates the syntax to the external pyyaml loader; the hooks
only ever feed it the text produced by `ProjectConfig.render` (possibly
edited).  The functions below implement YAML parsing for exactly the
line-oriented subset that `render` emits — the document start marker, blank
lines, full-line comments, top-level `key: scalar` entries, and block
sequences of quoted scalars — and attach to every node its 1-based start
line, exactly as the wrapping in `load_yaml` does
(`node.start_mark.line + 1`). -/

/-- A line that pyyaml ignores in this subset: the document start marker, a
blank line, or a line whose first non-space character is `#`. -/
def skipLine (l : String) : Bool :=
  l == "---" || l == "" || ((l.data.dropWhile (fun c => c == ' ')).head? == some '#')

/-- Splits `key: rest` at the first colon-space; `key: ` gives an empty rest. -/
def splitEntryAux (acc : List Char) : List Char → Option (String × String)
  | ':' :: ' ' :: rest => some (String.mk acc.reverse, String.mk rest)
  | c :: rest => splitEntryAux (c :: acc) rest
  | [] => none

/-- Recognizes a top-level mapping entry line. -/
def splitEntry (l : String) : Option (String × String) :=
  splitEntryAux [] l.data

/-- Undoes the `\"` escaping of `val2yml`. -/
def unescapeQuotes : List Char → List Char
  | '\\' :: '"' :: rest => '"' :: unescapeQuotes rest
  | c :: rest => c :: unescapeQuotes rest
  | [] => []

/-- All-digit token to its integer value. -/
def digitsVal (cs : List Char) : Int :=
  cs.foldl (fun acc c => 10 * acc + ((c.toNat : Int) - 48)) 0

/-- A scalar token of the rendered subset, located at line `ln`: `null`, the
empty flow sequence, a quoted string, or an integer literal. -/
def parseToken (tok : String) (ln : Int) : Except PErr Value :=
  if tok == "null" then .ok (.vnull (some ln))
  else if tok == "[]" then .ok (.vlist [] (some ln))
  else
    match tok.data with
    | '"' :: rest => .ok (.vstr (String.mk (unescapeQuotes rest.dropLast)) (some ln))
    | cs =>
      if cs ≠ [] && cs.all Char.isDigit then .ok (.vint (digitsVal cs) (some ln))
      else .error (.yamlError ln ("unsupported scalar: " ++ tok))

/-- A block sequence element line `  - <token>`. -/
def isItemLine (l : String) : Bool :=
  "  - ".data.isPrefixOf l.data

/-- The token part of a block sequence element line. -/
def itemTok (l : String) : String :=
  String.mk (l.data.drop 4)

/-- An in-progress block sequence: its mapping key and key line, the line of
its first element (the start mark of the sequence node), and the elements
collected so far. -/
structure PendSeq where
  key : String
  keyLine : Nat
  firstLine : Nat
  elems : List Value

/-- The entry produced when an in-progress block sequence ends: the sequence
node is located at its first element line. -/
def pendEntry (p : PendSeq) : Entry :=
  { key := p.key, keyLine := (p.keyLine : Int),
    value := .vlist p.elems (some ((p.firstLine : Nat) : Int)) }

/-- Closes an in-progress block sequence, prepending its entry to the rest
of the parse (a `key: ` line followed by no element line at all is not
produced by the renderer and reads as a malformed document). -/
def withFlush (pend : Option PendSeq) (res : Except PErr Doc) : Except PErr Doc :=
  match pend with
  | none => res
  | some p =>
    if p.elems.isEmpty then
      .error (.yamlError (p.keyLine : Int) "empty block sequence")
    else do
      let tail ← res
      .ok (pendEntry p :: tail)

/-- The main parse loop over the lines of the rendered subset, numbering
from `n` and carrying the in-progress block sequence: element lines extend
it, any other line closes it; skippable lines are skipped; `key: <token>`
yields a located entry and `key: ` opens a new block sequence. -/
def parseP (n : Nat) (pend : Option PendSeq) : List String → Except PErr Doc
  | [] => withFlush pend (.ok [])
  | l :: rest =>
    if isItemLine l then
      match pend with
      | none => .error (.yamlError (n : Int) ("unexpected sequence entry: " ++ l))
      | some p =>
        match parseToken (itemTok l) ((n : Nat) : Int) with
        | .error e => .error e
        | .ok v =>
          parseP (n + 1)
            (some { key := p.key, keyLine := p.keyLine,
                    firstLine := (if p.elems.isEmpty then n else p.firstLine),
                    elems := p.elems ++ [v] }) rest
    else
      withFlush pend
        (if skipLine l then parseP (n + 1) none rest
         else
           match splitEntry l with
           | some (k, tok) =>
             if tok == "" then
               parseP (n + 1)
                 (some { key := k, keyLine := n, firstLine := n, elems := [] }) rest
             else do
               let v ← parseToken tok (n : Int)
               let tail ← parseP (n + 1) none rest
               .ok ({ key := k, keyLine := (n : Int), value := v } :: tail)
           | none => .error (.yamlError (n : Int) ("cannot parse line: " ++ l)))

/-- The whole reader on rendered text: parse from line 1. -/
def parseRendered (lines : List String) : Except PErr Doc :=
  parseP 1 none lines

/-- The no-edit round trip of claim C1: build the `ProjectConfig` from the
loaded classifier list (`Classifiers.load_classifiers` aborts when
`find_license` finds no MIT classifier), render it, parse the rendered text
back and verify the parsed document, with the exception handling of
`Config.verify`. -/
def roundTrip (classifiers : List String) : Except String VOutcome :=
  match findLicense classifiers "MIT" with
  | none => .error "MIT license not in PyPI classifiers?"
  | some mit =>
    match parseRendered (projectRender (nonLicense classifiers)) with
    | .error (.yamlError l m) => .ok (.failed l m)
    | .error (.verificationError l m) => .ok (.failed l m)
    | .error (.pyError n m) => .error (n ++ ": " ++ m)
    | .ok doc => projectConfigVerify (nonLicense classifiers) mit doc

/-! ## Helper lemmas -/

theorem lookupDoc_singleton (k : String) (kl : Int) (v : Value) :
    lookupDoc [{ key := k, keyLine := kl, value := v }] k = some v := by
  simp [lookupDoc]

theorem keyLineOf_singleton (k : String) (kl : Int) (v : Value) :
    keyLineOf [{ key := k, keyLine := kl, value := v }] k = kl := by
  simp [keyLineOf, List.find?]

theorem updateDoc_singleton (k : String) (kl : Int) (v w : Value) :
    updateDoc [{ key := k, keyLine := kl, value := v }] k w
      = [{ key := k, keyLine := kl, value := w }] := by
  simp [updateDoc]

/-- The element loop accepts a list of located strings whose sanitized forms
all match, and stores the plain sanitized strings. -/
theorem verifyElems_ok (re : String → Bool) (iname : String) :
    ∀ ps : List (String × Int),
      (∀ p ∈ ps, re (sanitize p.1) = true) →
      verifyElems re iname (ps.map fun p => .vstr p.1 (some p.2))
        = .ok (ps.map fun p => .vstr (sanitize p.1) none) := by
  intro ps h
  induction ps with
  | nil => rfl
  | cons p ps ih =>
    have hp : re (sanitize p.1) = true := h p (List.mem_cons_self p ps)
    have ht : ∀ q ∈ ps, re (sanitize q.1) = true :=
      fun q hq => h q (List.mem_cons_of_mem p hq)
    simp only [List.map_cons, verifyElems, hp, if_true, ih ht]
    rfl

/-- The element loop fails at the line of the first non-matching element. -/
theorem verifyElems_err (re : String → Bool) (iname : String) :
    ∀ (ps : List (String × Int)) (x : String) (l : Int) (rest : List Value),
      (∀ p ∈ ps, re (sanitize p.1) = true) →
      re (sanitize x) = false →
      verifyElems re iname
          ((ps.map fun p => .vstr p.1 (some p.2)) ++ .vstr x (some l) :: rest)
        = .error (.verificationError l ("Invalid " ++ iname ++ " (" ++ x ++ ")")) := by
  intro ps x l rest h hx
  induction ps with
  | nil => simp [verifyElems, hx]
  | cons p ps ih =>
    have hp : re (sanitize p.1) = true := h p (List.mem_cons_self p ps)
    have ht : ∀ q ∈ ps, re (sanitize q.1) = true :=
      fun q hq => h q (List.mem_cons_of_mem p hq)
    simp only [List.map_cons, List.cons_append, verifyElems, hp, if_true]
    simp only [List.append_eq]
    rw [ih ht]
    rfl

/-! ## Claim theorems -/

/-- Claim C2 (status: code_bug).  On a document carrying an unquoted boolean
token such as `initialize_with_git: true`, the pyyaml constructor produces a
plain `bool`, and the line-wrapping of `load_yaml` tries to build a dynamic
subclass of `bool`, which CPython rejects with a `TypeError`; that error is
neither a `Document` nor a `yaml.YAMLError`, so `Config.verify` does not
catch it and the process crashes instead of reporting a located parse
error, contrary to the claim. -/
theorem c2_unquoted_bool_crash :
    loadYamlTopMap [("initialize_with_git", "true", 1)]
        = .error (.pyError "TypeError" "type bool is not an acceptable base type")
    ∧ caughtByConfigVerify
        (.pyError "TypeError" "type bool is not an acceptable base type") = false
    ∧ resolveScalar "true" = .pybool true := ⟨rfl, rfl, rfl⟩

/-- Claim C3 (status: code_bug).  `Interpreters.verify` calls `verify_list`
without the `sort` keyword, so the flag keeps its default `False` and the
validated list is stored in input order: for the input `["3.10", "3.9"]`
verification succeeds and the document still holds `["3.10", "3.9"]`, not
the numerically sorted `["3.9", "3.10"]` the claim (and the dead
`Interpreters.sorter` key function) expects. -/
theorem c3_interpreters_not_sorted :
    interpretersVerify
        [{ key := "interpreters", keyLine := 1,
           value := .vlist [.vstr "3.10" (some 2), .vstr "3.9" (some 3)] (some 2) }]
      = .ok [{ key := "interpreters", keyLine := 1,
               value := .vlist [.vstr "3.10" none, .vstr "3.9" none] (some 2) }]
    ∧ (["3.10", "3.9"] : List String) ≠ ["3.9", "3.10"] :=
  ⟨rfl, by decide⟩

/-- Claim C6, counterexample.  For a located value that is neither a bool,
an int nor a string — here a list whose node is on line 2 under a key on
line 1 — `verify_bool` fails via `assert_item_type` at the line of the KEY
(line 1), not at the line of the value (line 2), so the claim that any
other value fails located at that value's line is false. -/
theorem c6_counterexample :
    verifyBool "initialize_with_git"
        [{ key := "initialize_with_git", keyLine := 1,
           value := .vlist [.vstr "x" (some 2)] (some 2) }]
      = .error (.verificationError 1 "initialize_with_git: expected str")
    ∧ getAttrLine (.vlist [.vstr "x" (some 2)] (some 2)) = 2
    ∧ (1 : Int) ≠ 2 :=
  ⟨rfl, rfl, by decide⟩

/-- Claim C6, amended.  The coercion table itself holds: after stripping and
lower-casing, the five truthy tokens store `true`, the five falsy tokens
store `false`, the ints 0 and 1 store `false` / `true`, a native bool passes
through, and any other string or int fails at the VALUE's line — but a
value of any other runtime type (list, null, ...) fails with a type error
located at the KEY's line instead. -/
theorem c6_bool_coercion (k : String) (kl vl : Int) :
    (∀ s : String, ["yes", "y", "true", "t", "1"].contains (pyLower (pyStrip s)) = true →
       verifyBool k [{ key := k, keyLine := kl, value := .vstr s (some vl) }]
         = .ok [{ key := k, keyLine := kl, value := .vbool true }])
    ∧ (∀ s : String, ["no", "n", "false", "f", "0"].contains (pyLower (pyStrip s)) = true →
       verifyBool k [{ key := k, keyLine := kl, value := .vstr s (some vl) }]
         = .ok [{ key := k, keyLine := kl, value := .vbool false }])
    ∧ (∀ s : String,
       ["yes", "y", "true", "t", "1"].contains (pyLower (pyStrip s)) = false →
       ["no", "n", "false", "f", "0"].contains (pyLower (pyStrip s)) = false →
       verifyBool k [{ key := k, keyLine := kl, value := .vstr s (some vl) }]
         = .error (.verificationError vl ("Invalid value (" ++ s ++ ")")))
    ∧ (∀ n : Int, n = 0 ∨ n = 1 →
       verifyBool k [{ key := k, keyLine := kl, value := .vint n (some vl) }]
         = .ok [{ key := k, keyLine := kl, value := .vbool (n == 1) }])
    ∧ (∀ n : Int, n ≠ 0 → n ≠ 1 →
       verifyBool k [{ key := k, keyLine := kl, value := .vint n (some vl) }]
         = .error (.verificationError vl ("Invalid value (" ++ toString n ++ ")")))
    ∧ (∀ b : Bool, verifyBool k [{ key := k, keyLine := kl, value := .vbool b }]
         = .ok [{ key := k, keyLine := kl, value := .vbool b }])
    ∧ (∀ (xs : List Value) (l : Option Int),
       verifyBool k [{ key := k, keyLine := kl, value := .vlist xs l }]
         = .error (.verificationError kl (k ++ ": expected str"))) := by
  refine ⟨fun s h => ?_, fun s h => ?_, fun s h1 h2 => ?_, fun n h => ?_,
          fun n h0 h1 => ?_, fun b => ?_, fun xs l => ?_⟩
  · have ht : truthyTokens.contains (pyLower (pyStrip s)) = true := h
    have htm : pyLower (pyStrip s) ∈ truthyTokens := by simpa using ht
    simp [verifyBool, lookupDoc, updateDoc, htm]
  · have hf : falsyTokens.contains (pyLower (pyStrip s)) = true := h
    have hfm : pyLower (pyStrip s) ∈ falsyTokens := by simpa using hf
    have htm : pyLower (pyStrip s) ∉ truthyTokens := by
      have hmem := hfm
      simp only [falsyTokens, List.mem_cons, List.not_mem_nil, or_false] at hmem
      rcases hmem with e | e | e | e | e <;> rw [e] <;> decide
    simp [verifyBool, lookupDoc, updateDoc, htm, hfm]
  · have htm : pyLower (pyStrip s) ∉ truthyTokens := by
      have ht : truthyTokens.contains (pyLower (pyStrip s)) = false := h1
      simpa using ht
    have hfm : pyLower (pyStrip s) ∉ falsyTokens := by
      have hf : falsyTokens.contains (pyLower (pyStrip s)) = false := h2
      simpa using hf
    simp [verifyBool, lookupDoc, htm, hfm]
  · rcases h with h | h <;> subst h <;> simp [verifyBool, lookupDoc, updateDoc]
  · have : ¬(n == 0 || n == 1) = true := by simpa using ⟨h0, h1⟩
    simp [verifyBool, lookupDoc, this]
  · simp [verifyBool, lookupDoc]
  · simp [verifyBool, lookupDoc, keyLineOf, List.find?]

/-- Witness for C6: the coercion theorem applied at concrete inputs covering
a truthy string, a falsy string, an invalid string, and the int 1. -/
theorem c6_bool_coercion_witness :
    verifyBool "initialize_with_git"
        [{ key := "initialize_with_git", keyLine := 3, value := .vstr " True " (some 3) }]
      = .ok [{ key := "initialize_with_git", keyLine := 3, value := .vbool true }]
    ∧ verifyBool "initialize_with_git"
        [{ key := "initialize_with_git", keyLine := 3, value := .vstr "N" (some 3) }]
      = .ok [{ key := "initialize_with_git", keyLine := 3, value := .vbool false }]
    ∧ verifyBool "initialize_with_git"
        [{ key := "initialize_with_git", keyLine := 3, value := .vstr "maybe" (some 3) }]
      = .error (.verificationError 3 "Invalid value (maybe)")
    ∧ verifyBool "initialize_with_git"
        [{ key := "initialize_with_git", keyLine := 3, value := .vint 1 (some 3) }]
      = .ok [{ key := "initialize_with_git", keyLine := 3, value := .vbool true }] :=
  ⟨(c6_bool_coercion "initialize_with_git" 3 3).1 " True " (by decide),
   (c6_bool_coercion "initialize_with_git" 3 3).2.1 "N" (by decide),
   (c6_bool_coercion "initialize_with_git" 3 3).2.2.1 "maybe" (by decide) (by decide),
   (c6_bool_coercion "initialize_with_git" 3 3).2.2.2.1 1 (Or.inr rfl)⟩

/-- Claim C7, counterexample.  A concrete run of the real plugin-namespace
rule: the raw located value `" foo "` on line 2 passes validation, but the
normalized value stored back is the plain string `"foo"` WITHOUT a line
attribute (its line reads as -1 via the getattr default), so the claim that
string normalization preserves the original line annotation is false. -/
theorem c7_counterexample :
    pluginNameSpaceVerify
        [{ key := "project_type", keyLine := 1, value := .vint 1 (some 1) },
         { key := "plugin_name_space", keyLine := 2, value := .vstr " foo " (some 2) }]
      = .ok [{ key := "project_type", keyLine := 1, value := .vint 1 (some 1) },
             { key := "plugin_name_space", keyLine := 2, value := .vstr "foo" none }]
    ∧ getAttrLine (.vstr "foo" none) = -1
    ∧ strictLine (.vstr "foo" none)
        = .error (.pyError "AttributeError" "no attribute line")
    ∧ ((-1 : Int) ≠ 2) :=
  ⟨rfl, rfl, rfl, by decide⟩

/-- Claim C7, amended.  Normalization does NOT preserve the line annotation:
`verify_str` stores the stripped value as a plain string without a line
attribute, and `verify_list` replaces every element by a plain sanitized
string without a line attribute — only the list object itself (mutated in
place) keeps its own line.  The key object, and hence the key line, always
survives. -/
theorem c7_normalized_value_loses_line :
    (∀ (k : String) (kl vl : Int) (s : String) (re : String → Bool),
       s.length ≠ 0 → re (pyStrip s) = true →
       verifyStr k (some re) [{ key := k, keyLine := kl, value := .vstr s (some vl) }]
         = .ok [{ key := k, keyLine := kl, value := .vstr (pyStrip s) none }])
    ∧ (∀ (k : String) (kl vl el : Int) (s iname : String) (re : String → Bool),
       re (sanitize s) = true →
       verifyList k re iname false false
           [{ key := k, keyLine := kl, value := .vlist [.vstr s (some el)] (some vl) }]
         = .ok [{ key := k, keyLine := kl,
                  value := .vlist [.vstr (sanitize s) none] (some vl) }]) := by
  constructor
  · intro k kl vl s re hne hre
    have hlen : (s.length == 0) = false := by simpa using hne
    simp [verifyStr, lookupDoc, updateDoc, hlen, hre]
  · intro k kl vl el s iname re hre
    simp only [verifyList, lookupDoc, beq_self_eq_true, if_true]
    simp only [List.length_cons, List.length_nil]
    simp only [verifyElems, hre, if_true]
    simp only [updateDoc, beq_self_eq_true, if_true]
    rfl

/-- Witness for C7: the amended theorem applied to the raw string
`"  node  red "` under an always-true pattern, and to a one-element list. -/
theorem c7_normalized_value_loses_line_witness :
    verifyStr "entry_point_name" (some (fun _ => true))
        [{ key := "entry_point_name", keyLine := 5, value := .vstr "  node  red " (some 5) }]
      = .ok [{ key := "entry_point_name", keyLine := 5,
               value := .vstr "node  red" none }]
    ∧ verifyList "platforms" wordRe "platform name" false false
        [{ key := "platforms", keyLine := 7,
           value := .vlist [.vstr " linux " (some 8)] (some 8) }]
      = .ok [{ key := "platforms", keyLine := 7,
               value := .vlist [.vstr "linux" none] (some 8) }] := by
  constructor
  · have h := c7_normalized_value_loses_line.1 "entry_point_name" 5 5 "  node  red "
      (fun _ => true) (by decide) rfl
    have e1 : pyStrip "  node  red " = "node  red" := by decide
    rw [e1] at h
    exact h
  · have h := c7_normalized_value_loses_line.2 "platforms" 7 8 8 " linux "
      "platform name" wordRe (by decide)
    have e1 : sanitize " linux " = "linux" := by decide
    rw [e1] at h
    exact h

/-- Claim C8, counterexample.  A concrete run of the real
entry-point-source-description rule (a string-valued field): the accepted
value of `" This  project "` is stored as `"This  project."` — surrounding
whitespace trimmed but the internal run of whitespace NOT collapsed — while
the whitespace-normalized form the claim requires would be
`"This project."`.  Collapsing happens only for list elements
(via `sanitize`), never in `verify_str`. -/
theorem c8_counterexample :
    entryPointSourceDescriptionVerify
        [{ key := "project_type", keyLine := 1, value := .vint 1 (some 1) },
         { key := "entry_point_source_description", keyLine := 2,
           value := .vstr " This  project " (some 2) }]
      = .ok [{ key := "project_type", keyLine := 1, value := .vint 1 (some 1) },
             { key := "entry_point_source_description", keyLine := 2,
               value := .vstr "This  project." none }]
    ∧ sanitize " This  project " ++ "." = "This project."
    ∧ ("This  project." : String) ≠ "This project." :=
  ⟨rfl, by decide, by decide⟩

/-- Claim C8, amended.  For list-valued fields the claim holds: every element
is whitespace-normalized by `sanitize` (runs collapsed, surrounding
whitespace trimmed) before the pattern test and stored in that form, and a
mismatch fails at that element's line.  For string-valued fields the value
is only STRIPPED of surrounding whitespace — internal runs are preserved —
the pattern is tested against the stripped value, and a mismatch fails at
the value's line. -/
theorem c8_format_normalization :
    (∀ (k : String) (kl vl : Int) (s : String) (re : String → Bool),
       s.length ≠ 0 → re (pyStrip s) = true →
       verifyStr k (some re) [{ key := k, keyLine := kl, value := .vstr s (some vl) }]
         = .ok [{ key := k, keyLine := kl, value := .vstr (pyStrip s) none }])
    ∧ (∀ (k : String) (kl vl : Int) (s : String) (re : String → Bool),
       s.length ≠ 0 → re (pyStrip s) = false →
       verifyStr k (some re) [{ key := k, keyLine := kl, value := .vstr s (some vl) }]
         = .error (.verificationError vl ("Invalid value format (" ++ s ++ ")")))
    ∧ (∀ (k iname : String) (kl vl : Int) (re : String → Bool)
         (ps : List (String × Int)),
       ps ≠ [] →
       (∀ p ∈ ps, re (sanitize p.1) = true) →
       verifyList k re iname false false
           [{ key := k, keyLine := kl,
              value := .vlist (ps.map fun p => .vstr p.1 (some p.2)) (some vl) }]
         = .ok [{ key := k, keyLine := kl,
                  value := .vlist (ps.map fun p => .vstr (sanitize p.1) none) (some vl) }])
    ∧ (∀ (k iname x : String) (kl vl l : Int) (re : String → Bool)
         (ps : List (String × Int)) (rest : List Value),
       (∀ p ∈ ps, re (sanitize p.1) = true) →
       re (sanitize x) = false →
       verifyList k re iname false false
           [{ key := k, keyLine := kl,
              value := .vlist ((ps.map fun p => .vstr p.1 (some p.2))
                ++ .vstr x (some l) :: rest) (some vl) }]
         = .error (.verificationError l ("Invalid " ++ iname ++ " (" ++ x ++ ")"))) := by
  refine ⟨fun k kl vl s re hne hre => ?_, fun k kl vl s re hne hre => ?_,
          fun k iname kl vl re ps hne hall => ?_,
          fun k iname x kl vl l re ps rest hall hx => ?_⟩
  · have hlen : (s.length == 0) = false := by simpa using hne
    simp [verifyStr, lookupDoc, updateDoc, hlen, hre]
  · have hlen : (s.length == 0) = false := by simpa using hne
    simp [verifyStr, lookupDoc, hlen, hre]
  · have hlen : ((ps.map fun p => Value.vstr p.1 (some p.2)).length == 0) = false := by
      simpa using hne
    simp only [verifyList, lookupDoc, beq_self_eq_true, if_true, Bool.not_false,
      Bool.not_true, hlen, Bool.true_and, Bool.false_and, Bool.and_false, if_false]
    rw [verifyElems_ok re iname ps hall]
    simp only [updateDoc, beq_self_eq_true, if_true]
    rfl
  · have hlen : (((ps.map fun p => Value.vstr p.1 (some p.2))
        ++ Value.vstr x (some l) :: rest).length == 0) = false := by
      simp
    simp only [verifyList, lookupDoc, beq_self_eq_true, if_true, hlen,
      Bool.true_and, Bool.false_and, Bool.and_false, if_false]
    rw [verifyElems_err re iname ps x l rest hall hx]
    rfl

/-- Witness for C8: the amended theorem applied to the keywords list
`[" tox  plugin "]` (element sanitized to `"tox plugin"` and accepted) and
to a mismatching element located at its own line. -/
theorem c8_format_normalization_witness :
    verifyList "keywords" kwordRe "keyword format" false false
        [{ key := "keywords", keyLine := 9,
           value := .vlist [.vstr " tox  plugin " (some 10)] (some 10) }]
      = .ok [{ key := "keywords", keyLine := 9,
               value := .vlist [.vstr "tox plugin" none] (some 10) }]
    ∧ verifyList "keywords" kwordRe "keyword format" false false
        [{ key := "keywords", keyLine := 9,
           value := .vlist [.vstr "a!" (some 11)] (some 11) }]
      = .error (.verificationError 11 "Invalid keyword format (a!)") := by
  constructor
  · have h := c8_format_normalization.2.2.1 "keywords" "keyword format" 9 10 kwordRe
      [(" tox  plugin ", 10)] (by decide) (by intro p hp; fin_cases hp; decide)
    simpa using h
  · have h := c8_format_normalization.2.2.2 "keywords" "keyword format" "a!" 9 11 11
      kwordRe [] [] (by intro p hp; cases hp) (by decide)
    simpa using h

/-- Claim C9 (status: confirmed).  One run of `Config.edit_verify_loop` is
driven by the script of verification outcomes the edited file produces: for
`k` invalid outcomes followed by a valid one, with the operator always
accepting the continue prompt, the loop performs exactly `k + 1` editor
invocations (the first at line -1, then at each reported error line) and
returns the normalized document of the last iteration; if the operator
declines the prompt after an invalid outcome, the loop returns no
configuration (`None`) and invokes no further editor. -/
theorem c9_edit_verify_loop :
    (∀ (errs : List (Int × String)) (d : Doc) (b : Bool)
       (rest : List (VOutcome × Bool)),
       editVerifyLoop (-1) ((errs.map fun e => (VOutcome.failed e.1 e.2, true))
           ++ (VOutcome.valid d, b) :: rest)
         = some ((-1) :: errs.map (fun e => e.1), some d)
       ∧ ((-1 : Int) :: errs.map (fun e => e.1)).length = errs.length + 1)
    ∧ (∀ (l : Int) (m : String) (rest : List (VOutcome × Bool)),
       editVerifyLoop (-1) ((VOutcome.failed l m, false) :: rest)
         = some ([-1], none)) := by
  constructor
  · intro errs d b rest
    refine ⟨?_, by simp⟩
    have main : ∀ (errs : List (Int × String)) (atLine : Int),
        editVerifyLoop atLine ((errs.map fun e => (VOutcome.failed e.1 e.2, true))
            ++ (VOutcome.valid d, b) :: rest)
          = some (atLine :: errs.map (fun e => e.1), some d) := by
      intro errs
      induction errs with
      | nil => intro a; rfl
      | cons e errs ih =>
        intro a
        simp only [List.map_cons, List.cons_append, editVerifyLoop, if_true]
        simp only [List.append_eq]
        rw [ih e.1]
    exact main errs (-1)
  · intro l m rest
    rfl

/-! ## Helper lemmas for the key check, the item fold, and the sort order -/

theorem verifyKeysGen_append (declared : List String) :
    ∀ (pre rest : List Entry),
      (∀ x ∈ pre, declared.contains x.key = true) →
      verifyKeysGen declared (pre ++ rest) = verifyKeysGen declared rest := by
  intro pre
  induction pre with
  | nil => intro rest h; rfl
  | cons e pre ih =>
    intro rest h
    have he : declared.contains e.key = true := h e (List.mem_cons_self e pre)
    have ht : ∀ x ∈ pre, declared.contains x.key = true :=
      fun x hx => h x (List.mem_cons_of_mem e hx)
    simp only [List.cons_append, verifyKeysGen, he, if_true]
    simp only [List.append_eq]
    exact ih rest ht

theorem foldVerify_append (items2 : List (Doc → Except PErr Doc)) :
    ∀ (items1 : List (Doc → Except PErr Doc)) (doc d : Doc),
      foldVerify items1 doc = .ok d →
      foldVerify (items1 ++ items2) doc = foldVerify items2 d := by
  intro items1
  induction items1 with
  | nil =>
    intro doc d h
    cases h
    rfl
  | cons f items1 ih =>
    intro doc d h
    simp only [foldVerify] at h
    simp only [List.cons_append, foldVerify]
    cases hf : f doc with
    | ok doc2 =>
      rw [hf] at h
      exact ih doc2 d h
    | error e =>
      rw [hf] at h
      cases h

theorem lexLe_trans : ∀ as bs cs : List Char,
    lexLe as bs = true → lexLe bs cs = true → lexLe as cs = true := by
  intro as
  induction as with
  | nil => intro bs cs h1 h2; rfl
  | cons a as ih =>
    intro bs cs h1 h2
    cases bs with
    | nil => simp [lexLe] at h1
    | cons b bs =>
      cases cs with
      | nil => simp [lexLe] at h2
      | cons c cs =>
        simp only [lexLe, charLtN, decide_eq_true_eq] at h1 h2 ⊢
        by_cases h1ab : a.toNat < b.toNat
        · by_cases h2bc : b.toNat < c.toNat
          · have hac : a.toNat < c.toNat := by omega
            simp [hac]
          · by_cases h2cb : c.toNat < b.toNat
            · simp [h2bc, h2cb] at h2
            · have hac : a.toNat < c.toNat := by omega
              simp [hac]
        · by_cases h1ba : b.toNat < a.toNat
          · simp [h1ab, h1ba] at h1
          · by_cases h2bc : b.toNat < c.toNat
            · have hac : a.toNat < c.toNat := by omega
              simp [hac]
            · by_cases h2cb : c.toNat < b.toNat
              · simp [h2bc, h2cb] at h2
              · have hac : ¬ a.toNat < c.toNat := by omega
                have hca : ¬ c.toNat < a.toNat := by omega
                simp [h1ab, h1ba] at h1
                simp [h2bc, h2cb] at h2
                simp [hac, hca]
                exact ih bs cs h1 h2

theorem lexLe_total : ∀ as bs : List Char,
    lexLe as bs = true ∨ lexLe bs as = true := by
  intro as
  induction as with
  | nil => intro bs; left; rfl
  | cons a as ih =>
    intro bs
    cases bs with
    | nil => right; rfl
    | cons b bs =>
      simp only [lexLe, charLtN, decide_eq_true_eq]
      by_cases hab : a.toNat < b.toNat
      · left; simp [hab]
      · by_cases hba : b.toNat < a.toNat
        · right; simp [hba]
        · rcases ih bs with h | h
          · left; simp [hab, hba, h]
          · right; simp [hab, hba, h]

instance : IsTrans String pyLeRel :=
  ⟨fun a b c h1 h2 => lexLe_trans a.data b.data c.data h1 h2⟩

instance : IsTotal String pyLeRel :=
  ⟨fun a b => lexLe_total a.data b.data⟩

/-- The `Classifiers.verify` element loop accepts located strings whose
sanitized forms are all known classifiers, collecting the sanitized forms. -/
theorem classifiersElems_ok (cls : List String) :
    ∀ ps : List (String × Int),
      (∀ p ∈ ps, cls.contains (sanitize p.1) = true) →
      classifiersElems cls (ps.map fun p => .vstr p.1 (some p.2))
        = .ok (ps.map fun p => sanitize p.1) := by
  intro ps h
  induction ps with
  | nil => rfl
  | cons p ps ih =>
    have hp : cls.contains (sanitize p.1) = true := h p (List.mem_cons_self p ps)
    have ht : ∀ q ∈ ps, cls.contains (sanitize q.1) = true :=
      fun q hq => h q (List.mem_cons_of_mem p hq)
    simp only [List.map_cons, classifiersElems, hp, if_true, ih ht]
    rfl

/-- Claim C5 (status: confirmed).  `Config.verify` on a parsed document:
(1) the key check runs first and fails at the line of the first undeclared
key, for ANY item list — even one all of whose validations would succeed;
(2) the items run in declaration order against the evolving document — the
failing item sees the document produced by all items before it — and the
first failure short-circuits: the result does not depend on the items after
the failing one; (3) when every item succeeds, the outcome is the fully
normalized document produced by the fold. -/
theorem c5_config_verify_pipeline :
    (∀ (declared : List String) (items : List (Doc → Except PErr Doc))
       (pre : List Entry) (e : Entry) (post : List Entry),
       (∀ x ∈ pre, declared.contains x.key = true) →
       declared.contains e.key = false →
       configVerifyGen declared items (pre ++ e :: post)
         = .ok (.failed e.keyLine ("Invalid key (" ++ e.key ++ ")")))
    ∧ (∀ (declared : List String) (items1 : List (Doc → Except PErr Doc))
         (f : Doc → Except PErr Doc) (items2 : List (Doc → Except PErr Doc))
         (doc d : Doc) (l : Int) (m : String),
       verifyKeysGen declared doc = .ok () →
       foldVerify items1 doc = .ok d →
       f d = .error (.verificationError l m) →
       configVerifyGen declared (items1 ++ f :: items2) doc = .ok (.failed l m))
    ∧ (∀ (declared : List String) (items : List (Doc → Except PErr Doc))
         (doc d : Doc),
       verifyKeysGen declared doc = .ok () →
       foldVerify items doc = .ok d →
       configVerifyGen declared items doc = .ok (.valid d)) := by
  refine ⟨fun declared items pre e post hpre he => ?_,
          fun declared items1 f items2 doc d l m hk h1 hf => ?_,
          fun declared items doc d hk h => ?_⟩
  · have hkeys : verifyKeysGen declared (pre ++ e :: post)
        = .error (.verificationError e.keyLine ("Invalid key (" ++ e.key ++ ")")) := by
      rw [verifyKeysGen_append declared pre (e :: post) hpre]
      simp only [verifyKeysGen, he]
      rfl
    simp [configVerifyGen, hkeys, toOutcome]
  · have hfold : foldVerify (items1 ++ f :: items2) doc
        = .error (.verificationError l m) := by
      rw [foldVerify_append (f :: items2) items1 doc d h1]
      simp [foldVerify, hf]
    simp [configVerifyGen, hk, hfold, toOutcome]
  · simp [configVerifyGen, hk, h, toOutcome]

/-- Witness for C5: (1) a document whose only key `color` is undeclared
fails at that key's line 5 under the full project item list, although the
item list is never reached; (2) with `keywords` declared and empty, the
keywords item fails located at line 3 and the later
`initialize_with_git` item — which would raise a KeyError on this document
if it ran — is never reached; (3) a valid one-key document verifies to its
normalized form. -/
theorem c5_config_verify_pipeline_witness :
    configVerifyGen projectKeys (projectItems ["Topic :: Utilities"] "License :: OSI Approved :: MIT License")
        [{ key := "color", keyLine := 5, value := .vnull (some 5) }]
      = .ok (.failed 5 "Invalid key (color)")
    ∧ configVerifyGen ["keywords"] (keywordsVerify :: [initializeWithGitVerify])
        [{ key := "keywords", keyLine := 3, value := .vlist [] (some 3) }]
      = .ok (.failed 3 "keywords is empty")
    ∧ configVerifyGen ["initialize_with_git"] [initializeWithGitVerify]
        [{ key := "initialize_with_git", keyLine := 2, value := .vstr "yes" (some 2) }]
      = .ok (.valid [{ key := "initialize_with_git", keyLine := 2, value := .vbool true }]) := by
  refine ⟨?_, ?_, ?_⟩
  · exact c5_config_verify_pipeline.1 projectKeys _ [] _ [] (by intro x hx; cases hx) (by decide)
  · exact c5_config_verify_pipeline.2.1 ["keywords"] [] keywordsVerify [initializeWithGitVerify]
      _ _ 3 "keywords is empty" rfl rfl rfl
  · exact c5_config_verify_pipeline.2.2 ["initialize_with_git"] [initializeWithGitVerify]
      _ _ rfl rfl

/-- Claim C10 (status: confirmed).  For a document whose `classifiers` value
is a list of located strings each of which, after sanitization, belongs to
the loaded non-License classifier list, `Classifiers.verify` succeeds and
stores back the lexically sorted list obtained from the sanitized elements
with the pinned MIT license classifier appended (the append happens before
the sort, as in the source: `items.append(...); sorted(items)`); the result
is sorted in the code-point order of Python `sorted` and is a permutation
of the sanitized elements plus the MIT classifier.  In particular — even
though the field's description says mandatory — the empty list is accepted
and yields exactly the single MIT license classifier. -/
theorem c10_classifiers_verify :
    ∀ (classifiers : List String) (mit : String) (doc : Doc) (kl : Option Int)
      (ps : List (String × Int)),
      findLicense classifiers "MIT" = some mit →
      lookupDoc doc "classifiers"
        = some (.vlist (ps.map fun p => .vstr p.1 (some p.2)) kl) →
      (∀ p ∈ ps, (nonLicense classifiers).contains (sanitize p.1) = true) →
      classifiersVerify (nonLicense classifiers) mit doc
        = .ok (updateDoc doc "classifiers"
            (.vlist ((pySorted ((ps.map fun p => sanitize p.1) ++ [mit])).map
              (fun s => .vstr s none)) none))
      ∧ (pySorted ((ps.map fun p => sanitize p.1) ++ [mit])).Sorted pyLeRel
      ∧ (pySorted ((ps.map fun p => sanitize p.1) ++ [mit])).Perm
          ((ps.map fun p => sanitize p.1) ++ [mit])
      ∧ (ps = [] → pySorted ((ps.map fun p => sanitize p.1) ++ [mit]) = [mit]) := by
  intro classifiers mit doc kl ps hmit hlook hall
  refine ⟨?_, List.sorted_insertionSort pyLeRel _, List.perm_insertionSort pyLeRel _,
          fun h => by subst h; rfl⟩
  simp only [classifiersVerify, hlook]
  rw [classifiersElems_ok (nonLicense classifiers) ps hall]
  rfl

/-- Witness for C10: the classifiers theorem applied to a concrete loaded
list and to the documents `classifiers: ["Topic ::  Utilities"]` (sanitized,
sorted, MIT appended) and `classifiers: []` (accepted, yields the single
MIT classifier). -/
theorem c10_classifiers_verify_witness :
    classifiersVerify
        (nonLicense ["License :: OSI Approved :: MIT License", "Topic :: Utilities"])
        "License :: OSI Approved :: MIT License"
        [{ key := "classifiers", keyLine := 2,
           value := .vlist [.vstr "Topic ::  Utilities" (some 3)] (some 3) }]
      = .ok [{ key := "classifiers", keyLine := 2,
               value := .vlist [.vstr "License :: OSI Approved :: MIT License" none,
                                .vstr "Topic :: Utilities" none] none }]
    ∧ classifiersVerify
        (nonLicense ["License :: OSI Approved :: MIT License", "Topic :: Utilities"])
        "License :: OSI Approved :: MIT License"
        [{ key := "classifiers", keyLine := 2, value := .vlist [] (some 2) }]
      = .ok [{ key := "classifiers", keyLine := 2,
               value := .vlist [.vstr "License :: OSI Approved :: MIT License" none] none }] := by
  constructor
  · have h := (c10_classifiers_verify
      ["License :: OSI Approved :: MIT License", "Topic :: Utilities"]
      "License :: OSI Approved :: MIT License"
      [{ key := "classifiers", keyLine := 2,
         value := .vlist [.vstr "Topic ::  Utilities" (some 3)] (some 3) }]
      (some 3) [("Topic ::  Utilities", 3)] (by decide) rfl
      (by intro p hp; fin_cases hp; decide)).1
    have e : pySorted ((([("Topic ::  Utilities", (3 : Int))].map fun p => sanitize p.1))
        ++ ["License :: OSI Approved :: MIT License"])
        = ["License :: OSI Approved :: MIT License", "Topic :: Utilities"] := by decide
    rw [e] at h
    simpa using h
  · have h := (c10_classifiers_verify
      ["License :: OSI Approved :: MIT License", "Topic :: Utilities"]
      "License :: OSI Approved :: MIT License"
      [{ key := "classifiers", keyLine := 2, value := .vlist [] (some 2) }]
      (some 2) [] (by decide) rfl (by intro p hp; cases hp)).1
    simpa using h

/-- Claim C4 (status: confirmed).  The plugin-namespace rule is conditional:
(1) whenever the parsed `project_type` value does not equal 1, the rule
returns without touching the `plugin_name_space` field at all, so the
document can be Valid with that field absent or malformed — witnessed
concretely by full `ProjectConfig` verifications of package documents with
the field missing entirely and with a malformed (integer) value; (2) when
`project_type` equals 1 and the plugin-namespace value is absent (the
rendered `null` placeholder), verification fails located at that field's
key line with a string type error. -/
theorem c4_plugin_namespace_conditional :
    (∀ (doc : Doc) (pt : Value),
       lookupDoc doc "project_type" = some pt →
       pyEqInt pt 1 = false →
       pluginNameSpaceVerify doc = .ok doc)
    ∧ (∀ (doc : Doc) (pt : Value) (l : Option Int),
       lookupDoc doc "project_type" = some pt →
       pyEqInt pt 1 = true →
       lookupDoc doc "plugin_name_space" = some (.vnull l) →
       pluginNameSpaceVerify doc
         = .error (.verificationError (keyLineOf doc "plugin_name_space")
             "plugin_name_space: expected str"))
    ∧ (∃ d, projectConfigVerify ["Topic :: Utilities"]
        "License :: OSI Approved :: MIT License"
        [{ key := "classifiers", keyLine := 1, value := .vlist [] (some 1) },
         { key := "interpreters", keyLine := 2,
           value := .vlist [.vstr "3.9" (some 3)] (some 3) },
         { key := "keywords", keyLine := 4,
           value := .vlist [.vstr "testing" (some 5)] (some 5) },
         { key := "platforms", keyLine := 6,
           value := .vlist [.vstr "linux" (some 7)] (some 7) },
         { key := "requirements", keyLine := 8, value := .vlist [] (some 8) },
         { key := "project_type", keyLine := 9, value := .vint 0 (some 9) },
         { key := "initialize_with_git", keyLine := 10,
           value := .vstr "yes" (some 10) }]
        = .ok (.valid d))
    ∧ (∃ d, projectConfigVerify ["Topic :: Utilities"]
        "License :: OSI Approved :: MIT License"
        [{ key := "classifiers", keyLine := 1, value := .vlist [] (some 1) },
         { key := "interpreters", keyLine := 2,
           value := .vlist [.vstr "3.9" (some 3)] (some 3) },
         { key := "keywords", keyLine := 4,
           value := .vlist [.vstr "testing" (some 5)] (some 5) },
         { key := "platforms", keyLine := 6,
           value := .vlist [.vstr "linux" (some 7)] (some 7) },
         { key := "requirements", keyLine := 8, value := .vlist [] (some 8) },
         { key := "project_type", keyLine := 9, value := .vint 0 (some 9) },
         { key := "plugin_name_space", keyLine := 10, value := .vint 7 (some 10) },
         { key := "initialize_with_git", keyLine := 11,
           value := .vstr "yes" (some 11) }]
        = .ok (.valid d)) := by
  refine ⟨fun doc pt hpt hne => ?_, fun doc pt l hpt heq hpns => ?_, ⟨_, rfl⟩, ⟨_, rfl⟩⟩
  · simp [pluginNameSpaceVerify, hpt, hne]
  · simp [pluginNameSpaceVerify, hpt, heq, verifyStr, hpns]

/-- Witness for C4: the conditional theorem applied to concrete documents —
a package document where the malformed plugin namespace is skipped, and a
plugin document where the null placeholder fails at its key line 10. -/
theorem c4_plugin_namespace_conditional_witness :
    pluginNameSpaceVerify
        [{ key := "project_type", keyLine := 9, value := .vint 0 (some 9) },
         { key := "plugin_name_space", keyLine := 10, value := .vint 7 (some 10) }]
      = .ok [{ key := "project_type", keyLine := 9, value := .vint 0 (some 9) },
             { key := "plugin_name_space", keyLine := 10, value := .vint 7 (some 10) }]
    ∧ pluginNameSpaceVerify
        [{ key := "project_type", keyLine := 9, value := .vint 1 (some 9) },
         { key := "plugin_name_space", keyLine := 10, value := .vnull (some 10) }]
      = .error (.verificationError 10 "plugin_name_space: expected str") := by
  constructor
  · exact c4_plugin_namespace_conditional.1 _ (.vint 0 (some 9)) rfl (by decide)
  · have h := c4_plugin_namespace_conditional.2.1
      [{ key := "project_type", keyLine := 9, value := .vint 1 (some 9) },
       { key := "plugin_name_space", keyLine := 10, value := .vnull (some 10) }]
      (.vint 1 (some 9)) (some 10) rfl (by decide) rfl
    simpa [keyLineOf, List.find?] using h

/-! ## Claim C1: the no-edit round trip -/

/-- One commented-out hint element line of the rendered classifiers block. -/
def c1CommentFn (x : String) : String :=
  "  " ++ "#" ++ "- " ++ pyStrip (val2yml (.dstr x))

/-- The lines rendered after the classifiers block: the remaining eleven
items of `ProjectConfig.render`, which do not depend on the loaded
classifier list. -/
def c1Tail : List String :=
  ["# Specify supported Python interpreters [mandatory]",
   "interpreters: ",
   "  - \"3.6\"", "  - \"3.7\"", "  - \"3.8\"", "  - \"3.9\"",
   "",
   "# Specify project keywords [mandatory]",
   "keywords: []",
   "",
   "# Specify supported platforms (any, linux, macos, nt, os2, posix,",
   "# unix, win32, windows, ...) [mandatory]",
   "platforms: []",
   "",
   "# Specify the list of project requirements (in pip format)",
   "requirements: []",
   "",
   "# Specify the project type. Choices are:",
   "# 0 - package", "# 1 - plugin", "# 2 - console application",
   "project_type: 0",
   "",
   "# If you selected as a project_type plugin (1), please provide the",
   "# plugin name space (i.e. if you are developing a tox plugin, the",
   "# plugin name space is conventionally \"tox\")",
   "plugin_name_space: null",
   "",
   "# If your project has entry points (project_type > 0), please",
   "# provide the entry point name (this should be plugin or script",
   "# name)",
   "entry_point_name: null",
   "",
   "# If your project has entry points (project_type > 0), please",
   "# provide the name of the source file (without extension) that",
   "# contains the entry point\x27s code",
   "entry_point_source: null",
   "",
   "# If your project has entry points (project_type > 0), please",
   "# provide the description of the entry point source file (what",
   "# should go inside doc string)",
   "entry_point_source_description: null",
   "",
   "# If you selected as a project_type console application (2),",
   "# please provide the name of function that should be an",
   "# application entry point",
   "entry_point_function: \"main\"",
   "",
   "# Initialize the project with git? (choose yes, no, y, n, true,",
   "# false, t, f, 1, 0)",
   "initialize_with_git: \"yes\"",
   ""]

/-- The rendered document decomposes as the four head lines, the commented
classifier hint lines, the blank line closing the classifiers block, and
the fixed tail. -/
theorem projectRender_shape (cls : List String) :
    projectRender cls
      = "---" :: "" :: "# Specify PyPI classifiers [mandatory]"
          :: "classifiers: []"
          :: ((cls.map c1CommentFn ++ [""]) ++ c1Tail) := rfl

/-- Parsing steps over the four head lines: the three skipped lines and the
`classifiers: []` entry located at line 4. -/
theorem parseP_head (r : List String) :
    parseP 1 none ("---" :: "" :: "# Specify PyPI classifiers [mandatory]"
        :: "classifiers: []" :: r)
      = Except.bind (parseP 5 none r)
          (fun tail => .ok ({ key := "classifiers", keyLine := 4,
                              value := .vlist [] (some 4) } :: tail)) := rfl

/-- Every commented hint element line is skipped by the reader, whatever the
classifier text is. -/
theorem skipLine_comment (x : String) : skipLine (c1CommentFn x) = true := rfl

/-- Parsing skips the whole commented classifier block and the blank line
after it. -/
theorem parseP_comment_block :
    ∀ (cls : List String) (n : Nat) (tail : List String),
      parseP n none ((cls.map c1CommentFn ++ [""]) ++ tail)
        = parseP (n + cls.length + 1) none tail := by
  intro cls
  induction cls with
  | nil => intro n tail; rfl
  | cons x cls ih =>
    intro n tail
    have step : parseP n none (((x :: cls).map c1CommentFn ++ [""]) ++ tail)
        = parseP (n + 1) none ((cls.map c1CommentFn ++ [""]) ++ tail) := rfl
    rw [step, ih]
    refine congrArg (fun m => parseP m none tail) ?_
    simp only [List.length_cons]
    omega

/-- The parse of the fixed tail, for any start line `n`. -/
def c1TailDoc (n : Nat) : Doc :=
  [{ key := "interpreters", keyLine := ((n + 1 : Nat) : Int),
     value := .vlist [.vstr "3.6" (some ((n + 2 : Nat) : Int)),
                      .vstr "3.7" (some ((n + 3 : Nat) : Int)),
                      .vstr "3.8" (some ((n + 4 : Nat) : Int)),
                      .vstr "3.9" (some ((n + 5 : Nat) : Int))]
       (some ((n + 2 : Nat) : Int)) },
   { key := "keywords", keyLine := ((n + 8 : Nat) : Int),
     value := .vlist [] (some ((n + 8 : Nat) : Int)) },
   { key := "platforms", keyLine := ((n + 12 : Nat) : Int),
     value := .vlist [] (some ((n + 12 : Nat) : Int)) },
   { key := "requirements", keyLine := ((n + 15 : Nat) : Int),
     value := .vlist [] (some ((n + 15 : Nat) : Int)) },
   { key := "project_type", keyLine := ((n + 21 : Nat) : Int),
     value := .vint 0 (some ((n + 21 : Nat) : Int)) },
   { key := "plugin_name_space", keyLine := ((n + 26 : Nat) : Int),
     value := .vnull (some ((n + 26 : Nat) : Int)) },
   { key := "entry_point_name", keyLine := ((n + 31 : Nat) : Int),
     value := .vnull (some ((n + 31 : Nat) : Int)) },
   { key := "entry_point_source", keyLine := ((n + 36 : Nat) : Int),
     value := .vnull (some ((n + 36 : Nat) : Int)) },
   { key := "entry_point_source_description", keyLine := ((n + 41 : Nat) : Int),
     value := .vnull (some ((n + 41 : Nat) : Int)) },
   { key := "entry_point_function", keyLine := ((n + 46 : Nat) : Int),
     value := .vstr "main" (some ((n + 46 : Nat) : Int)) },
   { key := "initialize_with_git", keyLine := ((n + 50 : Nat) : Int),
     value := .vstr "yes" (some ((n + 50 : Nat) : Int)) }]

theorem parseP_tail (n : Nat) : parseP n none c1Tail = .ok (c1TailDoc n) := rfl

/-- Verification of the parsed default document: the classifiers item (the
hint field, empty list) and the interpreters item succeed, and the keywords
item — whose concrete default is the empty list — fails at its key line,
whatever the loaded classifier list is. -/
theorem c1_verify_stage (m : Nat) (cls : List String) (mit : String) :
    projectConfigVerify cls mit
        ({ key := "classifiers", keyLine := 4, value := .vlist [] (some 4) }
          :: c1TailDoc m)
      = .ok (.failed ((m + 8 : Nat) : Int) "keywords is empty") := rfl

/-- Claim C1, counterexample.  With the loaded classifier list
`["Topic :: Utilities", "License :: OSI Approved :: MIT License"]`, the
no-edit round trip neither succeeds nor fails at a hint field: it fails at
line 15, the key line of `keywords` — a field whose default is the concrete
(non-hint) empty list — while the only hint field, `classifiers` (key line
4), passes verification.  This refutes the claim that the round trip either
succeeds or fails exactly at a hint field and never at a field with a
concrete non-hint default. -/
theorem c1_counterexample :
    roundTrip ["Topic :: Utilities", "License :: OSI Approved :: MIT License"]
      = .ok (.failed 15 "keywords is empty")
    ∧ keyLineOf
        (match parseRendered (projectRender
          (nonLicense ["Topic :: Utilities", "License :: OSI Approved :: MIT License"])) with
         | .ok d => d
         | .error _ => []) "keywords" = 15
    ∧ keywordsItem.hint = false
    ∧ keyLineOf
        (match parseRendered (projectRender
          (nonLicense ["Topic :: Utilities", "License :: OSI Approved :: MIT License"])) with
         | .ok d => d
         | .error _ => []) "classifiers" = 4
    ∧ (classifiersItem
        (nonLicense ["Topic :: Utilities", "License :: OSI Approved :: MIT License"])).hint = true
    ∧ (15 : Int) ≠ 4 :=
  ⟨rfl, rfl, rfl, rfl, rfl, by decide⟩

/-- Claim C1, amended.  For every loaded classifier list containing an MIT
license entry, the no-edit round trip always fails, located at the key line
of `keywords` (line `14 + N` where `N` is the number of non-License
classifiers rendered as hint comments): keywords is a non-hint field whose
concrete empty-list default violates its own non-emptiness rule, while the
single hint field (classifiers) passes verification with its rendered empty
list. -/
theorem c1_roundtrip_fails_at_keywords (classifiers : List String) (mit : String)
    (h : findLicense classifiers "MIT" = some mit) :
    roundTrip classifiers
      = .ok (.failed ((14 + (nonLicense classifiers).length : Nat) : Int)
          "keywords is empty")
    ∧ keywordsItem.hint = false
    ∧ (classifiersItem (nonLicense classifiers)).hint = true := by
  refine ⟨?_, rfl, rfl⟩
  have hparse : parseRendered (projectRender (nonLicense classifiers))
      = .ok ({ key := "classifiers", keyLine := 4, value := .vlist [] (some 4) }
          :: c1TailDoc (5 + (nonLicense classifiers).length + 1)) := by
    show parseP 1 none (projectRender (nonLicense classifiers)) = _
    rw [projectRender_shape, parseP_head, parseP_comment_block, parseP_tail]
    rfl
  simp only [roundTrip, h, hparse]
  rw [c1_verify_stage]
  have e : ((5 + (nonLicense classifiers).length + 1) + 8 : Nat)
      = 14 + (nonLicense classifiers).length := by omega
  rw [e]

/-- Witness for C1: the amended round-trip theorem applied to a concrete
two-element classifier list (one non-License classifier, so the keywords
key line is 15). -/
theorem c1_roundtrip_fails_at_keywords_witness :
    roundTrip ["License :: OSI Approved :: MIT License", "Topic :: Utilities"]
      = .ok (.failed 15 "keywords is empty")
    ∧ keywordsItem.hint = false := by
  have h := c1_roundtrip_fails_at_keywords
    ["License :: OSI Approved :: MIT License", "Topic :: Utilities"]
    "License :: OSI Approved :: MIT License" (by decide)
  refine ⟨?_, h.2.1⟩
  have e : (((14 + (nonLicense ["License :: OSI Approved :: MIT License",
      "Topic :: Utilities"]).length : Nat)) : Int) = 15 := by decide
  rw [← e]
  exact h.1
